import Mathlib

/-!
# Verification of the portkill Port Inspection & Termination Engine

A shallow embedding of the portkill CLI's core (platform adapters,
validation utilities, and the `PortManager` engine) together with proofs
about it.  Each definition mirrors one function of the TypeScript source:

* `src/utils/validator.ts`         → `validatePort`, `validatePid`
* `src/models/process.ts`          → `Process`, `Process.make`
* `src/adapters/unix-adapter.ts`   → `unix*` definitions
* `src/adapters/windows-adapter.ts`→ `win*` definitions
* `src/core/port-manager.ts`       → `PMState`, `pmInit`, `*Catch`, …

External commands (`lsof`, `kill`, `ps`, `netstat`, `taskkill`,
`tasklist`) are modelled by their observable outcomes: a successful
invocation yields the captured stdout text, a failed one yields an
`ExecErr` record with the fields (`code`, `stdout`, `stderr`, `message`)
that the source inspects on the caught exception object.  The fixed
sleeps inside `killProcess` carry no data and are modelled by the
ordering of the steps alone.
-/

deriving instance DecidableEq for Except

namespace Portkill

/-! ## String primitives

The source manipulates JavaScript strings with `trim`, `split(/\s+/)`,
`split('\n')`, `includes`, `toUpperCase`, `slice`/`join` and `parseInt`.
Each primitive is re-implemented here over `List Char` so that all
definitions evaluate by kernel reduction. -/

/-- JavaScript `String.prototype.trim` (ASCII whitespace suffices for the
fixtures the tool parses). -/
def strTrim (s : String) : String :=
  ⟨((s.data.dropWhile Char.isWhitespace).reverse.dropWhile Char.isWhitespace).reverse⟩

/-- Auxiliary for `splitWs`: accumulates the current token (reversed). -/
def splitWsAux : List Char → List Char → List String
  | [], acc => if acc.isEmpty then [] else [⟨acc.reverse⟩]
  | c :: cs, acc =>
    if c.isWhitespace then
      if acc.isEmpty then splitWsAux cs [] else (⟨acc.reverse⟩ : String) :: splitWsAux cs []
    else splitWsAux cs (c :: acc)

/-- JavaScript `line.split(/\s+/)` applied to an already-trimmed line:
the list of maximal whitespace-free tokens. -/
def splitWs (s : String) : List String := splitWsAux s.data []

/-- Auxiliary for `splitLines`. -/
def splitLinesAux : List Char → List Char → List String
  | [], acc => [⟨acc.reverse⟩]
  | c :: cs, acc =>
    if c = '\n' then (⟨acc.reverse⟩ : String) :: splitLinesAux cs []
    else splitLinesAux cs (c :: acc)

/-- JavaScript `s.split('\n')` (keeps empty segments, never returns `[]`). -/
def splitLines (s : String) : List String := splitLinesAux s.data []

/-- Does `l` start with `p`? -/
def listStartsWith : List Char → List Char → Bool
  | _, [] => true
  | [], _ :: _ => false
  | a :: as, b :: bs => a = b && listStartsWith as bs

/-- Does `pat` occur as a contiguous sublist of `l`? -/
def listContainsSub (pat : List Char) : List Char → Bool
  | [] => listStartsWith [] pat
  | l@(_ :: rest) => listStartsWith l pat || listContainsSub pat rest

/-- JavaScript `s.includes(pat)`. -/
def strContains (s pat : String) : Bool := listContainsSub pat.data s.data

/-- JavaScript `s.toUpperCase()` (ASCII). -/
def strUpper (s : String) : String := ⟨s.data.map Char.toUpper⟩

/-- JavaScript `parts.join(' ')`. -/
def joinSpace (l : List String) : String := String.intercalate " " l

/-- Numeric value of a decimal digit character. -/
def digitVal (c : Char) : Nat := c.toNat - 48

/-- Value of a list of decimal digits, most significant first. -/
def digitsToNat (l : List Char) : Nat := l.foldl (fun a c => a * 10 + digitVal c) 0

/-- Is `c` a hexadecimal digit? -/
def isHexDigitChar (c : Char) : Bool :=
  c.isDigit || ('a' ≤ c && c ≤ 'f') || ('A' ≤ c && c ≤ 'F')

/-- Numeric value of a hexadecimal digit character. -/
def hexDigitVal (c : Char) : Nat :=
  if c.isDigit then c.toNat - 48
  else if 'a' ≤ c && c ≤ 'f' then c.toNat - 97 + 10
  else c.toNat - 65 + 10

/-- Value of a list of hexadecimal digits, most significant first. -/
def hexDigitsToNat (l : List Char) : Nat := l.foldl (fun a c => a * 16 + hexDigitVal c) 0

/-- Strip an optional sign, returning the sign (as `Int`) and the rest. -/
def stripSign : List Char → Int × List Char
  | '-' :: rest => (-1, rest)
  | '+' :: rest => (1, rest)
  | l => (1, l)

/-- JavaScript `parseInt(s, 10)`: skip leading whitespace, optional sign,
then the maximal run of decimal digits; `none` models `NaN`. -/
def jsParseInt10 (s : String) : Option Int :=
  let l := s.data.dropWhile Char.isWhitespace
  let (sign, l) := stripSign l
  let ds := l.takeWhile Char.isDigit
  if ds.isEmpty then none else some (sign * (digitsToNat ds : Int))

/-- JavaScript `parseInt(s)` with no radix argument: as `jsParseInt10`,
except that a `0x`/`0X` prefix switches to hexadecimal. -/
def jsParseInt (s : String) : Option Int :=
  let l := s.data.dropWhile Char.isWhitespace
  let (sign, l) := stripSign l
  match l with
  | '0' :: c :: rest =>
    if c = 'x' || c = 'X' then
      let hs := rest.takeWhile isHexDigitChar
      if hs.isEmpty then none else some (sign * (hexDigitsToNat hs : Int))
    else
      let ds := l.takeWhile Char.isDigit
      if ds.isEmpty then none else some (sign * (digitsToNat ds : Int))
  | _ =>
    let ds := l.takeWhile Char.isDigit
    if ds.isEmpty then none else some (sign * (digitsToNat ds : Int))

example : jsParseInt10 "3000abc" = some 3000 := by decide
example : jsParseInt10 "80.5" = some 80 := by decide
example : jsParseInt10 "abc" = none := by decide
example : jsParseInt "1234" = some 1234 := by decide
example : splitWs "a  bc   d" = ["a", "bc", "d"] := by decide
example : splitLines "a\nb\n" = ["a", "b", ""] := by decide
example : strContains "x (LISTEN)" "(LISTEN)" = true := by decide
example : strContains "" "N" = false := by decide
example : strTrim "  ab " = "ab" := by decide

/-! ## Data model (`src/models/process.ts`) -/

/-- The `protocol` enumeration of the `Process` model. -/
inductive Protocol where
  | TCP
  | UDP
deriving DecidableEq, Repr

/-- The `Process` record (`src/models/process.ts`). -/
structure Process where
  pid : Int
  name : String
  user : String
  protocol : Protocol
  port : Int
  command : String
deriving DecidableEq, Repr

/-- The `Process` constructor together with its `_validate` checks:
`none` models a thrown construction error, so no partially valid
instance is observable.  (In the source `pid` and `port` are JS numbers
checked with `Number.isInteger`; they are modelled as `Int` here, and
the `typeof ... === 'string'` checks hold by typing.) -/
def Process.make (pid : Int) (name user : String) (protocol : Protocol)
    (port : Int) (command : String) : Option Process :=
  if pid ≤ 0 then none
  else if name = "" then none
  else if user = "" then none
  else if port < 1 || 65535 < port then none
  else some ⟨pid, name, user, protocol, port, command⟩

/-! ## Errors (`src/errors/*`) and raw command failures -/

/-- The observable shape of a failed external-command invocation: the
fields of the exception object that the source inspects
(`err.code`, `err.stdout`, `err.stderr`, `err.message`).  A missing
(`undefined`) `stdout`/`stderr` is represented by `""`, which is falsy
in every guard of the source exactly like `undefined`. -/
structure ExecErr where
  code : Option Int
  stdout : String
  stderr : String
  message : String
deriving DecidableEq, Repr

/-- The error taxonomy of `src/errors`, plus `exec` for a raw
unclassified failure propagating uncaught (the source rethrows the
original exception object in its final `throw error` branches). -/
inductive AppError where
  | validation (message : String)
  | permission (message : String) (pid : Option Int)
  | system (message : String) (command : Option String) (exitCode : Option Int)
  | network (message : String) (port : Option Int) (operation : Option String)
  | exec (err : ExecErr)
deriving DecidableEq, Repr

/-- `instanceof SystemError || instanceof ValidationError ||
instanceof PermissionError || instanceof NetworkError`. -/
def AppError.isKnown : AppError → Bool
  | .validation _ => true
  | .permission _ _ => true
  | .system _ _ _ => true
  | .network _ _ _ => true
  | .exec _ => false

/-- `err.message` of an error value. -/
def AppError.message : AppError → String
  | .validation m => m
  | .permission m _ => m
  | .system m _ _ => m
  | .network m _ _ => m
  | .exec e => e.message

/-- Is a result a thrown `ValidationError`? -/
def isValidationErr {α : Type} : Except AppError α → Bool
  | .error (.validation _) => true
  | _ => false

/-! ## Validation utilities (`src/utils/validator.ts`)

`validatePort`/`validatePid` accept `unknown` and treat strings and
numbers differently.  A JS number input is modelled as a rational
(`ℚ`): `Number.isInteger q` becomes `q.den = 1` (NaN/Infinity inputs,
which also fail `Number.isInteger`, are outside the model). -/

/-- A caller-supplied port/pid value: a JS string or a JS number. -/
inductive JsValue where
  | str (s : String)
  | num (q : ℚ)

/-- `validatePort` (`src/utils/validator.ts`): strings are coerced with
`parseInt(port, 10)`; a non-integer or NaN value is a `ValidationError`,
then the 1–65535 range is enforced. -/
def validatePort (v : JsValue) : Except AppError Int :=
  match v with
  | .str s =>
    match jsParseInt10 s with
    | none =>
      .error (.validation ("Invalid port number: \"" ++ s ++
        "\". Port must be a valid integer between 1 and 65535."))
    | some n =>
      if n < 1 || 65535 < n then
        .error (.validation ("Port " ++ toString n ++
          " is out of range. Port must be between 1 and 65535."))
      else .ok n
  | .num q =>
    if q.den ≠ 1 then
      .error (.validation "Invalid port number. Port must be a valid integer between 1 and 65535.")
    else if q.num < 1 || 65535 < q.num then
      .error (.validation ("Port " ++ toString q.num ++
        " is out of range. Port must be between 1 and 65535."))
    else .ok q.num

/-- `validatePid` (`src/utils/validator.ts`): same coercion, then
`pidNum <= 0` is rejected. -/
def validatePid (v : JsValue) : Except AppError Int :=
  match v with
  | .str s =>
    match jsParseInt10 s with
    | none =>
      .error (.validation ("Invalid process ID: \"" ++ s ++
        "\". Process ID must be a positive integer."))
    | some n =>
      if n ≤ 0 then
        .error (.validation ("Invalid process ID: \"" ++ toString n ++
          "\". Process ID must be a positive integer."))
      else .ok n
  | .num q =>
    if q.den ≠ 1 || q.num ≤ 0 then
      .error (.validation "Invalid process ID. Process ID must be a positive integer.")
    else .ok q.num

example : validatePort (.str "3000") = .ok 3000 := by decide
example : validatePort (.num 80) = .ok 80 := by decide
example : isValidationErr (validatePort (.num (mkRat 161 2))) = true := by decide
example : isValidationErr (validatePort (.str "0")) = true := by decide
example : validatePid (.str "99") = .ok 99 := by decide

/-! ## Unix adapter (`src/adapters/unix-adapter.ts`)

`findProcessByPort` runs `lsof -i :port -P -n` and parses its stdout
line by line; `killProcess` drives `kill -TERM` / `kill -KILL` with
liveness polls through `ps`. -/

/-- The TYPE/NODE-based protocol choice of `findProcessByPort`
(`unix-adapter.ts:54-60`): default `TCP`; `TCP` when `parts[4]` is
`IPv4`/`IPv6`, else `UDP` when `parts[7]` is truthy and contains
`UDP`. -/
def unixProtocol (parts : List String) : Protocol :=
  if parts.getD 4 "" = "IPv4" || parts.getD 4 "" = "IPv6" then .TCP
  else if parts.getD 7 "" ≠ "" && strContains (parts.getD 7 "") "UDP" then .UDP
  else .TCP

/-- `connectionInfo = parts.slice(8).join(' ')` (`unix-adapter.ts:46`). -/
def unixConnectionInfo (parts : List String) : String := joinSpace (parts.drop 8)

/-- The relevance filter (`unix-adapter.ts:62-67`): keep a line iff its
connection info contains `(LISTEN)` or `(ESTABLISHED)`, or its protocol
is `UDP`. -/
def unixRelevant (parts : List String) : Bool :=
  strContains (unixConnectionInfo parts) "(LISTEN)" ||
  strContains (unixConnectionInfo parts) "(ESTABLISHED)" ||
  unixProtocol parts = .UDP

/-- The tail of the per-line loop body (`unix-adapter.ts:54-83`), after
the pid has been parsed and found fresh: compute the protocol, apply the
relevance filter, and construct the `Process` (a construction error is
swallowed by the inner `catch`, yielding `none`). -/
def unixLineProcAux (port : Int) (parts : List String) (pid : Int) : Option Process :=
  if !unixRelevant parts then none
  else
    let name := parts.getD 0 ""
    let user := parts.getD 2 ""
    Process.make pid (if name = "" then "Unknown" else name)
      (if user = "" then "Unknown" else user) (unixProtocol parts) port
      (if name = "" then "Unknown" else name)

/-- The per-line `for` loop of `findProcessByPort`
(`unix-adapter.ts:34-84`); `seen` is the `processMap` key set (a pid is
recorded only when its `Process` is pushed). -/
def unixLoop (port : Int) : List String → List Int → List Process
  | [], _ => []
  | l :: ls, seen =>
    let line := strTrim l
    if line = "" then unixLoop port ls seen
    else
      let parts := splitWs line
      if parts.length < 9 then unixLoop port ls seen
      else
        match jsParseInt (parts.getD 1 "") with
        | none => unixLoop port ls seen
        | some pid =>
          if pid ≤ 0 then unixLoop port ls seen
          else if pid ∈ seen then unixLoop port ls seen
          else
            match unixLineProcAux port parts pid with
            | none => unixLoop port ls seen
            | some proc => proc :: unixLoop port ls (pid :: seen)

/-- The data lines of an lsof stdout: everything after the header line
(`for (let i = 1; …)`), or nothing when the trimmed output is empty. -/
def unixDataLines (stdout : String) : List String :=
  if strTrim stdout = "" then [] else (splitLines (strTrim stdout)).drop 1

/-- `findProcessByPort`'s successful-stdout path
(`unix-adapter.ts:19-86`). -/
def unixFindProcessByPort (port : Int) (stdout : String) : List Process :=
  unixLoop port (unixDataLines stdout) []

/-- The `catch` block of the Unix `findProcessByPort`
(`unix-adapter.ts:87-116`): classify a failed `lsof` invocation, with
`exit code 1 + empty stdout` converted to the empty list. -/
def unixFindHandleError (port : Int) (err : ExecErr) : Except AppError (List Process) :=
  if err.code = some 1 && err.stderr ≠ "" && strContains err.stderr "No such file or directory" then
    .error (.system "lsof command not found. Please install lsof to use this tool."
      (some ("lsof -i :" ++ toString port)) err.code)
  else if err.code = some 1 && err.stdout = "" then
    .ok []
  else if err.stderr ≠ "" && strContains err.stderr "Permission denied" then
    .error (.permission "Permission denied when checking port. Some processes may not be visible without elevated privileges." none)
  else if strContains err.message "network" || strContains err.message "connection" ||
      strContains err.message "timeout" || (err.stderr ≠ "" && strContains err.stderr "network") then
    .error (.network ("Network error while checking port " ++ toString port ++ ": " ++ err.message)
      (some port) (some "lsof lookup"))
  else if err.stderr ≠ "" && strContains err.stderr "invalid" then
    .error (.validation ("Invalid port number " ++ toString port ++ " for lsof command"))
  else
    .error (.system ("Failed to find processes on port " ++ toString port ++ ": " ++ err.message)
      (some ("lsof -i :" ++ toString port)) err.code)

/-- The whole Unix `findProcessByPort`, as a function of the outcome of
the `lsof` invocation. -/
def unixFindResult (port : Int) (res : Except ExecErr String) : Except AppError (List Process) :=
  match res with
  | .ok stdout => .ok (unixFindProcessByPort port stdout)
  | .error err => unixFindHandleError port err

/-- `_killWithSignal` (`unix-adapter.ts:210-234`) as a function of the
outcome of `kill -SIG pid` (`none` = command succeeded):
`.ok ()` is a normal return, `.error` a thrown error; the final branch
rethrows the raw exec failure. -/
def unixKillWithSignal (pid : Int) (signal : String) (res : Option ExecErr) : Except AppError Unit :=
  match res with
  | none => .ok ()
  | some err =>
    if err.code = some 1 && err.stderr ≠ "" && strContains err.stderr "Operation not permitted" then
      .error (.permission ("Permission denied when trying to kill process " ++ toString pid ++
        ". The process may be owned by another user or be a system process.") (some pid))
    else if err.code = some 1 && err.stderr ≠ "" && strContains err.stderr "No such process" then
      .ok ()
    else if err.stderr ≠ "" && strContains err.stderr "Invalid argument" then
      .error (.system ("Invalid signal or process ID when trying to kill process " ++ toString pid)
        (some ("kill -" ++ signal ++ " " ++ toString pid)) err.code)
    else
      .error (.exec err)

/-- `_isProcessRunning` (`unix-adapter.ts:242-251`): `ps -p pid` output
(`none` = the command failed, treated as not running); running iff the
trimmed stdout is non-empty. -/
def unixIsRunning (psOut : Option String) : Bool :=
  match psOut with
  | none => false
  | some out => strTrim out ≠ ""

/-- The external-world outcomes a single Unix `killProcess` run can
observe, in the order it observes them. -/
structure UnixKillEnv where
  /-- outcome of `kill -TERM pid` (`none` = exit 0) -/
  termErr : Option ExecErr
  /-- `ps -p pid` output after the 1000 ms wait (`none` = `ps` failed) -/
  psAfterTerm : Option String
  /-- outcome of `kill -KILL pid` (`none` = exit 0) -/
  killErr : Option ExecErr
  /-- `ps -p pid` output after the 500 ms wait (`none` = `ps` failed) -/
  psAfterKill : Option String

/-- The `catch` block of the Unix `killProcess`
(`unix-adapter.ts:194-201`): a `PermissionError` is rethrown, anything
else is wrapped as a `SystemError`. -/
def unixKillCatch (pid : Int) (e : AppError) : AppError :=
  match e with
  | .permission m p => .permission m p
  | e => .system ("Failed to kill process " ++ toString pid ++ ": " ++ e.message)
      (some ("kill " ++ toString pid)) none

/-- `killProcess` (`unix-adapter.ts:172-202`).  The second component of
the result records the signals issued, in order, so that "the forced
signal is never issued / issued exactly once" is a statement about the
model.  The two fixed sleeps carry no data and appear only as the
ordering of observations in `UnixKillEnv`. -/
def unixKillProcess (pid : Int) (env : UnixKillEnv) : Except AppError Bool × List String :=
  match unixKillWithSignal pid "TERM" env.termErr with
  | .error e => (.error (unixKillCatch pid e), ["TERM"])
  | .ok _ =>
    if !unixIsRunning env.psAfterTerm then (.ok true, ["TERM"])
    else
      match unixKillWithSignal pid "KILL" env.killErr with
      | .error e => (.error (unixKillCatch pid e), ["TERM", "KILL"])
      | .ok _ => (.ok (!unixIsRunning env.psAfterKill), ["TERM", "KILL"])

example :
    unixFindProcessByPort 3000
      ("COMMAND  PID USER   FD   TYPE DEVICE SIZE/OFF NODE NAME\n" ++
       "node    1234  dev   23u  IPv4 0x1    0t0      TCP *:3000 (LISTEN)") =
      [⟨1234, "node", "dev", .TCP, 3000, "node"⟩] := by decide

example :
    unixFindProcessByPort 3000
      ("COMMAND  PID USER   FD   TYPE DEVICE SIZE/OFF NODE NAME\n" ++
       "node    1234  dev   23u  IPv4 0x1    0t0      TCP 1.2.3.4:3000->5.6.7.8:1 (CLOSE_WAIT)") =
      [] := by decide

/-! ## Windows adapter (`src/adapters/windows-adapter.ts`)

`findProcessByPort` runs `netstat -ano | findstr :port`; for each kept
pid it awaits `getProcessDetails` (tasklist), falling back to an
`Unknown` record when that fails.  The detail lookup is modelled as an
oracle `details : Int → Option WinDetails` (`none` = the lookup threw). -/

/-- The result shape of the Windows `getProcessDetails`. -/
structure WinDetails where
  name : String
  user : String
  command : String
deriving DecidableEq, Repr

/-- The regex test `new RegExp(":port(\\s|$)").test(localAddress)`
(`windows-adapter.ts:46-47`): `pat` occurs in the text followed by a
whitespace character or the end of the string. -/
def matchHereWs : List Char → List Char → Bool
  | [], [] => true
  | [], c :: _ => c.isWhitespace
  | _ :: _, [] => false
  | p :: ps, c :: cs => p = c && matchHereWs ps cs

/-- Does `pat` followed by whitespace-or-end occur anywhere in `l`? -/
def containsFollowedWs (pat : List Char) : List Char → Bool
  | [] => matchHereWs pat []
  | l@(_ :: rest) => matchHereWs pat l || containsFollowedWs pat rest

/-- `portPattern.test localAddress` for `portPattern = /:port(\s|$)/`. -/
def winPortPatternTest (port : Int) (s : String) : Bool :=
  containsFollowedWs (":" ++ toString port).data s.data

/-- Extract the pid of a netstat line after the port-pattern test, per
protocol branch (`windows-adapter.ts:53-67`): TCP lines need 5 fields
and state `LISTENING`/`ESTABLISHED` (pid is field 5); UDP lines need no
state (pid is field 4); other protocols are skipped. -/
def winLinePid (parts : List String) : Option Int :=
  let protoStr := strUpper (parts.getD 0 "")
  if protoStr = "TCP" then
    if parts.length < 5 then none
    else
      let state := parts.getD 3 ""
      if state ≠ "LISTENING" && state ≠ "ESTABLISHED" then none
      else jsParseInt (parts.getD 4 "")
  else if protoStr = "UDP" then jsParseInt (parts.getD 3 "")
  else none

/-- Construct the `Process` for one kept pid
(`windows-adapter.ts:74-103`): try the detail lookup and a full record;
on any failure fall back to an `Unknown` record; if even that
construction fails the entry is dropped (`none`). -/
def winBuildProcess (details : Int → Option WinDetails) (pid : Int) (proto : Protocol)
    (port : Int) : Option Process :=
  let primary :=
    match details pid with
    | some d =>
      Process.make pid (if d.name = "" then "Unknown" else d.name)
        (if d.user = "" then "Unknown" else d.user) proto port
        (if d.command ≠ "" then d.command else if d.name ≠ "" then d.name else "Unknown")
    | none => none
  match primary with
  | some p => some p
  | none => Process.make pid "Unknown" "Unknown" proto port "Unknown"

/-- The per-line `for` loop of the Windows `findProcessByPort`
(`windows-adapter.ts:33-104`); `seen` is `pidSet`, which the source
grows *before* attempting construction. -/
def winLoop (port : Int) (details : Int → Option WinDetails) :
    List String → List Int → List Process
  | [], _ => []
  | l :: ls, seen =>
    let line := strTrim l
    if line = "" then winLoop port details ls seen
    else
      let parts := splitWs line
      if parts.length < 4 then winLoop port details ls seen
      else if !winPortPatternTest port (parts.getD 1 "") then winLoop port details ls seen
      else
        match winLinePid parts with
        | none => winLoop port details ls seen
        | some pid =>
          if pid ≤ 0 || pid ∈ seen then winLoop port details ls seen
          else
            let proto := if strUpper (parts.getD 0 "") = "TCP" then Protocol.TCP else Protocol.UDP
            match winBuildProcess details pid proto port with
            | some proc => proc :: winLoop port details ls (pid :: seen)
            | none => winLoop port details ls (pid :: seen)

/-- The lines of a netstat stdout (no header line to skip: `findstr`
already filtered), or nothing when the trimmed output is empty. -/
def winDataLines (stdout : String) : List String :=
  if strTrim stdout = "" then [] else splitLines (strTrim stdout)

/-- The Windows `findProcessByPort` successful-stdout path
(`windows-adapter.ts:19-106`). -/
def winFindProcessByPort (port : Int) (details : Int → Option WinDetails)
    (stdout : String) : List Process :=
  winLoop port details (winDataLines stdout) []

/-- The `catch` block of the Windows `findProcessByPort`
(`windows-adapter.ts:107-137`). -/
def winFindHandleError (port : Int) (err : ExecErr) : Except AppError (List Process) :=
  if err.code = some 1 && err.stdout = "" then
    .ok []
  else if err.stderr ≠ "" && strContains err.stderr "Access is denied" then
    .error (.permission "Permission denied when checking port. Some processes may not be visible without elevated privileges." none)
  else if strContains err.message "network" || strContains err.message "connection" ||
      strContains err.message "timeout" || (err.stderr ≠ "" && strContains err.stderr "network") then
    .error (.network ("Network error while checking port " ++ toString port ++ ": " ++ err.message)
      (some port) (some "netstat lookup"))
  else if err.stderr ≠ "" && (strContains err.stderr "not recognized" || strContains err.stderr "not found") then
    .error (.system "Required system command not found. Ensure netstat and findstr are available."
      (some ("netstat -ano | findstr :" ++ toString port)) err.code)
  else if err.stderr ≠ "" && strContains err.stderr "invalid" then
    .error (.validation ("Invalid port number " ++ toString port ++ " for netstat command"))
  else
    .error (.system ("Failed to find processes on port " ++ toString port ++ ": " ++ err.message)
      (some ("netstat -ano | findstr :" ++ toString port)) err.code)

/-- The whole Windows `findProcessByPort`, as a function of the outcome
of the `netstat | findstr` invocation. -/
def winFindResult (port : Int) (details : Int → Option WinDetails)
    (res : Except ExecErr String) : Except AppError (List Process) :=
  match res with
  | .ok stdout => .ok (winFindProcessByPort port details stdout)
  | .error err => winFindHandleError port err

/-- `_killWithForce` (`windows-adapter.ts:237-267`) as a function of the
outcome of `taskkill /PID pid [/F]`. -/
def winKillWithForce (pid : Int) (force : Bool) (res : Option ExecErr) : Except AppError Unit :=
  let cmd := if force then "taskkill /PID " ++ toString pid ++ " /F"
             else "taskkill /PID " ++ toString pid
  match res with
  | none => .ok ()
  | some err =>
    if err.code = some 128 && err.stderr ≠ "" && strContains err.stderr "Access is denied" then
      .error (.permission ("Permission denied when trying to kill process " ++ toString pid ++
        ". The process may be a system process or owned by another user.") (some pid))
    else if err.code = some 128 && err.stderr ≠ "" && strContains err.stderr "not found" then
      .ok ()
    else if err.stderr ≠ "" && (strContains err.stderr "not recognized" || strContains err.stderr "not found") then
      .error (.system "taskkill command not found. Ensure Windows system tools are available."
        (some cmd) err.code)
    else if err.stderr ≠ "" && strContains err.stderr "Invalid argument" then
      .error (.system ("Invalid process ID " ++ toString pid ++ " or taskkill parameters")
        (some cmd) err.code)
    else
      .error (.exec err)

/-- The Windows `_isProcessRunning` (`windows-adapter.ts:275-284`):
running iff tasklist succeeded, its trimmed stdout is non-empty, and the
stdout does not carry the "no tasks" banner. -/
def winIsRunning (tasklistOut : Option String) : Bool :=
  match tasklistOut with
  | none => false
  | some out => strTrim out ≠ "" && !strContains out "INFO: No tasks are running"

/-- The external-world outcomes of one Windows `killProcess` run. -/
structure WinKillEnv where
  /-- outcome of the unforced `taskkill` (`none` = exit 0) -/
  gracefulErr : Option ExecErr
  /-- tasklist output after the 1000 ms wait (`none` = tasklist failed) -/
  tasklistAfterGraceful : Option String
  /-- outcome of `taskkill /F` (`none` = exit 0) -/
  forcedErr : Option ExecErr
  /-- tasklist output after the 500 ms wait (`none` = tasklist failed) -/
  tasklistAfterForced : Option String

/-- The `catch` block of the Windows `killProcess`
(`windows-adapter.ts:221-228`). -/
def winKillCatch (pid : Int) (e : AppError) : AppError :=
  match e with
  | .permission m p => .permission m p
  | e => .system ("Failed to kill process " ++ toString pid ++ ": " ++ e.message)
      (some ("taskkill /PID " ++ toString pid)) none

/-- `killProcess` (`windows-adapter.ts:199-229`); the second component
records the force flags of the `taskkill` invocations issued, in
order. -/
def winKillProcess (pid : Int) (env : WinKillEnv) : Except AppError Bool × List Bool :=
  match winKillWithForce pid false env.gracefulErr with
  | .error e => (.error (winKillCatch pid e), [false])
  | .ok _ =>
    if !winIsRunning env.tasklistAfterGraceful then (.ok true, [false])
    else
      match winKillWithForce pid true env.forcedErr with
      | .error e => (.error (winKillCatch pid e), [false, true])
      | .ok _ => (.ok (!winIsRunning env.tasklistAfterForced), [false, true])

example :
    winFindProcessByPort 3000 (fun _ => none)
      ("  TCP    0.0.0.0:3000    0.0.0.0:0    LISTENING    4321\n" ++
       "  TCP    0.0.0.0:3000    1.2.3.4:55   ESTABLISHED  4321\n" ++
       "  UDP    0.0.0.0:3000    *:*          777") =
      [⟨4321, "Unknown", "Unknown", .TCP, 3000, "Unknown"⟩,
       ⟨777, "Unknown", "Unknown", .UDP, 3000, "Unknown"⟩] := by decide

example :
    winFindProcessByPort 3000 (fun _ => none)
      "  TCP    0.0.0.0:30000    0.0.0.0:0    LISTENING    4321" = [] := by decide

/-! ## Port Inspection & Termination Engine (`src/core/port-manager.ts`)

The manager holds a nullable adapter reference and an `_initialized`
flag.  An adapter instance is modelled by the one datum the manager
inspects: the boolean its `isCompatible()` returns (`isCompatible`
never throws on either adapter).  Platform selection
(`getPlatformAdapter`) is modelled by its outcome: the constructed
adapter, or the message of the thrown `Error` for an unsupported
platform. -/

/-- A constructed platform adapter, as seen by the manager. -/
structure AdapterInst where
  /-- what this adapter's `isCompatible()` resolves to -/
  compatible : Bool
deriving DecidableEq, Repr

/-- The manager's mutable state: `adapter` and `_initialized`
(`port-manager.ts:13-14`). -/
structure PMState where
  adapter : Option AdapterInst
  inited : Bool
deriving DecidableEq, Repr

/-- A fresh manager (`adapter = null`, `_initialized = false`). -/
def PMState.fresh : PMState := ⟨none, false⟩

/-- `getAdapter()` (`port-manager.ts:172-174`). -/
def getAdapter (st : PMState) : Option AdapterInst := st.adapter

/-- `isInitialized()` (`port-manager.ts:180-182`). -/
def pmIsInited (st : PMState) : Bool := st.inited

/-- The observable work `initialize` may perform. -/
inductive InitEvent where
  /-- `getPlatformAdapter()` + `new AdapterClass()` -/
  | selectAdapter
  /-- `adapter.isCompatible()` -/
  | checkCompat
deriving DecidableEq, Repr

/-- `initialize()` (`port-manager.ts:21-50`), as a state transition.
`sel` is the outcome of platform selection.  Returns the thrown error
or unit, the new state, and the list of performed `InitEvent`s.  Note
that `this.adapter` is assigned *before* the compatibility check, and
that on incompatibility the thrown `SystemError` passes the `catch`
unchanged while a selection failure is wrapped. -/
def pmInit (sel : Except String AdapterInst) (st : PMState) :
    Except AppError Unit × PMState × List InitEvent :=
  if st.inited then (.ok (), st, [])
  else
    match sel with
    | .error msg =>
      (.error (.system ("Failed to initialize port manager: " ++ msg) none none), st,
        [.selectAdapter])
    | .ok a =>
      let st1 : PMState := { st with adapter := some a }
      if a.compatible then (.ok (), { st1 with inited := true }, [.selectAdapter, .checkCompat])
      else
        (.error (.system "Platform adapter is not compatible with current system" none none),
          st1, [.selectAdapter, .checkCompat])

/-- The `catch` block of `checkPort` (`port-manager.ts:74-90`): the four
known error classes pass through; a generic failure whose message
mentions a network keyword becomes a `NetworkError` tagged with the
validated port and the operation label `"port check"`; anything else is
wrapped as a `SystemError`. -/
def checkPortCatch (validPort : Int) (e : AppError) : AppError :=
  if e.isKnown then e
  else if strContains e.message "network" || strContains e.message "connection" ||
      strContains e.message "timeout" || strContains e.message "unreachable" then
    .network ("Network error while checking port " ++ toString validPort ++ ": " ++ e.message)
      (some validPort) (some "port check")
  else
    .system ("Failed to check port " ++ toString validPort ++ ": " ++ e.message) none none

/-- The `catch` block of the manager's `killProcess`
(`port-manager.ts:115-124`): known classes pass through, everything
else is wrapped as `SystemError` (no network heuristic). -/
def killProcessCatch (validPid : Int) (e : AppError) : AppError :=
  if e.isKnown then e
  else .system ("Failed to kill process " ++ toString validPid ++ ": " ++ e.message) none none

/-- The `catch` block of the manager's `getProcessDetails`
(`port-manager.ts:147-154`). -/
def getProcessDetailsCatch (validPid : Int) (e : AppError) : AppError :=
  if e.isKnown then e
  else .system ("Failed to get process details for PID " ++ toString validPid ++ ": " ++ e.message)
    none none

/-- `checkPort` (`port-manager.ts:58-91`): validate, lazily initialize,
delegate, classify failures.  `adapterRes` is the outcome of
`adapter.findProcessByPort(validPort)`, supplied as a function of the
validated port. -/
def pmCheckPort (sel : Except String AdapterInst) (st : PMState) (port : JsValue)
    (adapterRes : Int → Except AppError (List Process)) :
    Except AppError (List Process) × PMState × List InitEvent :=
  match validatePort port with
  | .error e => (.error e, st, [])
  | .ok validPort =>
    match pmInit sel st with
    | (.error e, st', evs) => (.error e, st', evs)
    | (.ok _, st', evs) =>
      match st'.adapter with
      | none => (.error (.system "Port manager adapter not initialized" none none), st', evs)
      | some _ =>
        match adapterRes validPort with
        | .ok ps => (.ok ps, st', evs)
        | .error e => (.error (checkPortCatch validPort e), st', evs)

example :
    pmInit (.ok ⟨true⟩) PMState.fresh =
      (.ok (), ⟨some ⟨true⟩, true⟩, [.selectAdapter, .checkCompat]) := by decide

example :
    pmInit (.ok ⟨true⟩) ⟨some ⟨true⟩, true⟩ = (.ok (), ⟨some ⟨true⟩, true⟩, []) := by decide

/-! ## Theorems -/

/-- C8: for every integer port `p` with `1 ≤ p ≤ 65535`, `validatePort p`
returns `p` unchanged; for every integer `p` outside that range and for
every non-integer numeric input, `validatePort` fails with a
`ValidationError`. -/
theorem validatePort_range_spec (p : Int) (q : ℚ) :
    (1 ≤ p → p ≤ 65535 → validatePort (.num (p : ℚ)) = .ok p) ∧
    (p < 1 ∨ 65535 < p → isValidationErr (validatePort (.num (p : ℚ))) = true) ∧
    (q.den ≠ 1 → isValidationErr (validatePort (.num q)) = true) := by
  refine ⟨?_, ?_, ?_⟩
  · intro h1 h2
    have hlt : ¬p < 1 := by omega
    have hgt : ¬(65535 : Int) < p := by omega
    simp [validatePort, Rat.den_intCast, Rat.num_intCast, hlt, hgt]
  · intro h
    have hb : (decide (p < 1) || decide ((65535 : Int) < p)) = true := by
      rcases h with h | h <;> simp [h]
    simp [validatePort, Rat.den_intCast, Rat.num_intCast, hb, isValidationErr]
  · intro h
    simp [validatePort, h, isValidationErr]

/-- C8 witness: concrete instances discharging each hypothesis. -/
theorem validatePort_range_spec_witness :
    validatePort (.num ((3000 : Int) : ℚ)) = .ok 3000 ∧
    isValidationErr (validatePort (.num ((70000 : Int) : ℚ))) = true ∧
    isValidationErr (validatePort (.num (mkRat 1 3))) = true :=
  ⟨(validatePort_range_spec 3000 1).1 (by decide) (by decide),
   (validatePort_range_spec 70000 1).2.1 (Or.inr (by decide)),
   (validatePort_range_spec 1 (mkRat 1 3)).2.2 (by decide)⟩

/-- C9: for string inputs `validatePort`/`validatePid` coerce with
`parseInt(_, 10)`, so `"3000abc"` and `"80.5"` validate to `3000` and
`80` (trailing text / fractional part silently discarded) instead of
failing, while the same fractional value given as a number (`80.5`) is
rejected with a `ValidationError`. -/
theorem validate_parseInt_coercion :
    validatePort (.str "3000abc") = .ok 3000 ∧
    validatePort (.str "80.5") = .ok 80 ∧
    isValidationErr (validatePort (.num (mkRat 161 2))) = true ∧
    validatePid (.str "3000abc") = .ok 3000 ∧
    validatePid (.str "80.5") = .ok 80 := by decide

/-- C3: a failure raised by the adapter inside an Engine operation is
rethrown unchanged when it is one of the four known error classes;
otherwise it is wrapped as a `SystemError`, except in `checkPort` only,
where a failure whose message contains `network`, `connection`,
`timeout` or `unreachable` is reclassified as a `NetworkError` tagged
with the validated port and the operation label `"port check"`. -/
theorem engine_error_classification (p pid : Int) (e : AppError) :
    (e.isKnown = true →
      checkPortCatch p e = e ∧ killProcessCatch pid e = e ∧ getProcessDetailsCatch pid e = e) ∧
    (e.isKnown = false →
      ((strContains e.message "network" || strContains e.message "connection" ||
          strContains e.message "timeout" || strContains e.message "unreachable") = true →
        checkPortCatch p e =
          .network ("Network error while checking port " ++ toString p ++ ": " ++ e.message)
            (some p) (some "port check")) ∧
      ((strContains e.message "network" || strContains e.message "connection" ||
          strContains e.message "timeout" || strContains e.message "unreachable") = false →
        checkPortCatch p e =
          .system ("Failed to check port " ++ toString p ++ ": " ++ e.message) none none) ∧
      killProcessCatch pid e =
        .system ("Failed to kill process " ++ toString pid ++ ": " ++ e.message) none none ∧
      getProcessDetailsCatch pid e =
        .system ("Failed to get process details for PID " ++ toString pid ++ ": " ++ e.message)
          none none) := by
  refine ⟨fun hk => ?_, fun hu => ⟨fun hnet => ?_, fun hnonet => ?_, ?_, ?_⟩⟩
  · simp [checkPortCatch, killProcessCatch, getProcessDetailsCatch, hk]
  · simp [checkPortCatch, hu, hnet]
  · simp [checkPortCatch, hu, hnonet]
  · simp [killProcessCatch, hu]
  · simp [getProcessDetailsCatch, hu]

/-- C3 witness: a known error passes through `checkPort` untouched, a
generic failure with a network keyword is reclassified there, and a
generic failure in `killProcess` is wrapped as a `SystemError`. -/
theorem engine_error_classification_witness :
    checkPortCatch 3000 (.permission "denied" none) = .permission "denied" none ∧
    checkPortCatch 3000 (.exec ⟨none, "", "", "connection refused"⟩) =
      .network ("Network error while checking port " ++ toString (3000 : Int) ++ ": " ++
        (AppError.exec ⟨none, "", "", "connection refused"⟩).message)
        (some 3000) (some "port check") ∧
    killProcessCatch 42 (.exec ⟨none, "", "", "boom"⟩) =
      .system ("Failed to kill process " ++ toString (42 : Int) ++ ": " ++
        (AppError.exec ⟨none, "", "", "boom"⟩).message) none none :=
  ⟨((engine_error_classification 3000 42 (.permission "denied" none)).1 (by decide)).1,
   (((engine_error_classification 3000 42 (.exec ⟨none, "", "", "connection refused"⟩)).2
      (by decide)).1 (by decide)),
   (((engine_error_classification 3000 42 (.exec ⟨none, "", "", "boom"⟩)).2 (by decide)).2.2.1)⟩

/-- C4: the Engine's initialization is idempotent — once initialized, a
further `initialize` call (direct, or the lazy one inside a public
operation such as `checkPort`) performs no adapter selection or
compatibility check and leaves the state unchanged — and when the
selected adapter's `isCompatible()` returns `false`, `initialize`
raises a `SystemError` and leaves the `_initialized` flag `false`. -/
theorem pmInit_idempotent_and_incompat (sel : Except String AdapterInst) (st : PMState)
    (a : AdapterInst) (port : JsValue) (res : Int → Except AppError (List Process)) :
    (pmIsInited st = true → pmInit sel st = (.ok (), st, [])) ∧
    (pmIsInited st = true →
      (pmCheckPort sel st port res).2.1 = st ∧ (pmCheckPort sel st port res).2.2 = []) ∧
    (pmIsInited st = false → sel = .ok a → a.compatible = false →
      pmInit sel st =
        (.error (.system "Platform adapter is not compatible with current system" none none),
          { st with adapter := some a }, [.selectAdapter, .checkCompat]) ∧
      pmIsInited (pmInit sel st).2.1 = false) := by
  refine ⟨fun hi => ?_, fun hi => ?_, fun hu hsel hcomp => ?_⟩
  · simp [pmInit, pmIsInited] at hi ⊢
    simp [hi]
  · have h1 : pmInit sel st = (.ok (), st, []) := by
      simp [pmInit, pmIsInited] at hi ⊢
      simp [hi]
    cases hv : validatePort port with
    | error e => simp [pmCheckPort, hv]
    | ok vp =>
      simp only [pmCheckPort, hv, h1]
      cases hA : st.adapter with
      | none => simp
      | some a' => cases res vp <;> simp
  · simp [pmIsInited] at hu
    constructor
    · simp [pmInit, hu, hsel, hcomp]
    · simp [pmInit, hu, hsel, hcomp, pmIsInited]

/-- C4 witness: a concrete initialized state is left untouched, and a
concrete incompatible adapter leaves the flag down. -/
theorem pmInit_idempotent_and_incompat_witness :
    pmInit (.ok ⟨true⟩) ⟨some ⟨true⟩, true⟩ = (.ok (), ⟨some ⟨true⟩, true⟩, []) ∧
    pmInit (.ok ⟨false⟩) PMState.fresh =
      (.error (.system "Platform adapter is not compatible with current system" none none),
        { PMState.fresh with adapter := some ⟨false⟩ }, [.selectAdapter, .checkCompat]) :=
  ⟨(pmInit_idempotent_and_incompat (.ok ⟨true⟩) ⟨some ⟨true⟩, true⟩ ⟨true⟩ (.num 1)
      (fun _ => .ok [])).1 (by decide),
   ((pmInit_idempotent_and_incompat (.ok ⟨false⟩) PMState.fresh ⟨false⟩ (.num 1)
      (fun _ => .ok [])).2.2 (by decide) rfl (by decide)).1⟩

/-- C10: when initialization fails because `isCompatible()` returned
`false`, the `_initialized` flag stays `false` (`isInitialized()` is
`false`) but the adapter reference has already been assigned, so
`getAdapter()` returns the constructed adapter rather than `null`: the
failed initialization is not fully rolled back. -/
theorem pmInit_failure_keeps_adapter (a : AdapterInst) (h : a.compatible = false) :
    pmIsInited (pmInit (.ok a) PMState.fresh).2.1 = false ∧
    getAdapter (pmInit (.ok a) PMState.fresh).2.1 = some a ∧
    (pmInit (.ok a) PMState.fresh).1 =
      .error (.system "Platform adapter is not compatible with current system" none none) := by
  refine ⟨?_, ?_, ?_⟩ <;> simp [pmInit, PMState.fresh, pmIsInited, getAdapter, h]

/-- C10 witness. -/
theorem pmInit_failure_keeps_adapter_witness :
    pmIsInited (pmInit (.ok ⟨false⟩) PMState.fresh).2.1 = false ∧
    getAdapter (pmInit (.ok ⟨false⟩) PMState.fresh).2.1 = some ⟨false⟩ ∧
    (pmInit (.ok ⟨false⟩) PMState.fresh).1 =
      .error (.system "Platform adapter is not compatible with current system" none none) :=
  pmInit_failure_keeps_adapter ⟨false⟩ (by decide)

/-- A non-empty pattern never occurs in the empty string. -/
theorem strContains_ne_nil (s p : String) (hp : p.data ≠ []) (h : strContains s p = true) :
    s ≠ "" := by
  intro hs
  subst hs
  cases hl : p.data with
  | nil => exact hp hl
  | cons c cs =>
    simp only [strContains, hl] at h
    simp [listContainsSub, listStartsWith] at h

/-- C5: when the discovery command fails with exit code 1 and empty
output (the diagnostic tool's conventional "no matches" signal),
`findProcessByPort` returns an empty list on either adapter rather than
raising an error, whatever the failure message says. -/
theorem find_no_matches_empty (port : Int) (msg : String)
    (details : Int → Option WinDetails) :
    unixFindResult port (.error ⟨some 1, "", "", msg⟩) = .ok [] ∧
    winFindResult port details (.error ⟨some 1, "", "", msg⟩) = .ok [] := by
  exact ⟨rfl, rfl⟩

/-- C2: `killProcess` issues the graceful signal first; when the
liveness poll after the graceful phase reports the process dead it
returns `true` and the forced signal is never issued; when the poll
reports it alive the forced signal is issued exactly once and the
returned boolean is the negation of the second liveness poll (still
running after the forced kill yields `false`, not an error).  The
hypotheses say only that the four `kill`/`taskkill` invocations
themselves return normally (which includes the benign
"no such process" outcomes). -/
theorem killProcess_two_phase (pid : Int) (ue : UnixKillEnv) (we : WinKillEnv)
    (hu1 : unixKillWithSignal pid "TERM" ue.termErr = .ok ())
    (hu2 : unixKillWithSignal pid "KILL" ue.killErr = .ok ())
    (hw1 : winKillWithForce pid false we.gracefulErr = .ok ())
    (hw2 : winKillWithForce pid true we.forcedErr = .ok ()) :
    (unixIsRunning ue.psAfterTerm = false → unixKillProcess pid ue = (.ok true, ["TERM"])) ∧
    (unixIsRunning ue.psAfterTerm = true →
      unixKillProcess pid ue = (.ok (!unixIsRunning ue.psAfterKill), ["TERM", "KILL"])) ∧
    (winIsRunning we.tasklistAfterGraceful = false → winKillProcess pid we = (.ok true, [false])) ∧
    (winIsRunning we.tasklistAfterGraceful = true →
      winKillProcess pid we = (.ok (!winIsRunning we.tasklistAfterForced), [false, true])) := by
  refine ⟨fun h => ?_, fun h => ?_, fun h => ?_, fun h => ?_⟩ <;>
    simp [unixKillProcess, winKillProcess, hu1, hu2, hw1, hw2, h]

/-- C2 witness: a graceful-phase success and a forced-phase run on
concrete environments. -/
theorem killProcess_two_phase_witness :
    unixKillProcess 7 ⟨none, some "", none, some ""⟩ = (.ok true, ["TERM"]) ∧
    winKillProcess 7 ⟨none, some "live", none, some ""⟩ = (.ok true, [false, true]) :=
  ⟨(killProcess_two_phase 7 ⟨none, some "", none, some ""⟩ ⟨none, some "", none, some ""⟩
      rfl rfl rfl rfl).1 (by decide),
   (killProcess_two_phase 7 ⟨none, some "", none, some ""⟩ ⟨none, some "live", none, some ""⟩
      rfl rfl rfl rfl).2.2.2 (by decide)⟩

/-- C7: when the termination command reports "no such process" (Unix,
exit code 1) or "not found" (Windows, exit code 128) for the graceful
or the forced signal, `killProcess` treats it as the process already
being gone: no error is raised and, the process indeed being gone (the
liveness poll that follows reports it dead), the call returns `true`. -/
theorem kill_no_such_process_success (pid : Int) (e1 e2 e3 e4 : ExecErr)
    (ue1 ue2 : UnixKillEnv) (we1 we2 : WinKillEnv)
    (h1a : ue1.termErr = some e1) (h1b : e1.code = some 1)
    (h1c : strContains e1.stderr "No such process" = true)
    (h1d : strContains e1.stderr "Operation not permitted" = false)
    (h1e : unixIsRunning ue1.psAfterTerm = false)
    (h2a : ue2.termErr = none) (h2b : unixIsRunning ue2.psAfterTerm = true)
    (h2c : ue2.killErr = some e2) (h2d : e2.code = some 1)
    (h2e : strContains e2.stderr "No such process" = true)
    (h2f : strContains e2.stderr "Operation not permitted" = false)
    (h2g : unixIsRunning ue2.psAfterKill = false)
    (h3a : we1.gracefulErr = some e3) (h3b : e3.code = some 128)
    (h3c : strContains e3.stderr "not found" = true)
    (h3d : strContains e3.stderr "Access is denied" = false)
    (h3e : winIsRunning we1.tasklistAfterGraceful = false)
    (h4a : we2.gracefulErr = none) (h4b : winIsRunning we2.tasklistAfterGraceful = true)
    (h4c : we2.forcedErr = some e4) (h4d : e4.code = some 128)
    (h4e : strContains e4.stderr "not found" = true)
    (h4f : strContains e4.stderr "Access is denied" = false)
    (h4g : winIsRunning we2.tasklistAfterForced = false) :
    unixKillProcess pid ue1 = (.ok true, ["TERM"]) ∧
    unixKillProcess pid ue2 = (.ok true, ["TERM", "KILL"]) ∧
    winKillProcess pid we1 = (.ok true, [false]) ∧
    winKillProcess pid we2 = (.ok true, [false, true]) := by
  have hne1 : e1.stderr ≠ "" := strContains_ne_nil _ _ (by decide) h1c
  have hne2 : e2.stderr ≠ "" := strContains_ne_nil _ _ (by decide) h2e
  have hne3 : e3.stderr ≠ "" := strContains_ne_nil _ _ (by decide) h3c
  have hne4 : e4.stderr ≠ "" := strContains_ne_nil _ _ (by decide) h4e
  have k1 : unixKillWithSignal pid "TERM" ue1.termErr = .ok () := by
    rw [h1a]; simp [unixKillWithSignal, h1b, h1c, h1d, hne1]
  have k2 : unixKillWithSignal pid "KILL" ue2.killErr = .ok () := by
    rw [h2c]; simp [unixKillWithSignal, h2d, h2e, h2f, hne2]
  have k3 : winKillWithForce pid false we1.gracefulErr = .ok () := by
    rw [h3a]; simp [winKillWithForce, h3b, h3c, h3d, hne3]
  have k4 : winKillWithForce pid true we2.forcedErr = .ok () := by
    rw [h4c]; simp [winKillWithForce, h4d, h4e, h4f, hne4]
  have t2 : unixKillWithSignal pid "TERM" ue2.termErr = .ok () := by rw [h2a]; rfl
  have t4 : winKillWithForce pid false we2.gracefulErr = .ok () := by rw [h4a]; rfl
  refine ⟨?_, ?_, ?_, ?_⟩
  · simp [unixKillProcess, k1, h1e]
  · simp [unixKillProcess, t2, h2b, k2, h2g]
  · simp [winKillProcess, k3, h3e]
  · simp [winKillProcess, t4, h4b, k4, h4g]

/-- C7 witness: concrete "no such process" / "not found" outcomes. -/
theorem kill_no_such_process_success_witness :
    unixKillProcess 9
      ⟨some ⟨some 1, "", "kill: (9) - No such process", "Command failed"⟩,
        some "", none, some ""⟩ = (.ok true, ["TERM"]) ∧
    winKillProcess 9
      ⟨none, some "alive",
        some ⟨some 128, "", "ERROR: The process \"9\" not found.", "Command failed"⟩,
        some ""⟩ = (.ok true, [false, true]) := by
  refine ⟨?_, ?_⟩
  · exact (kill_no_such_process_success 9
      ⟨some 1, "", "kill: (9) - No such process", "Command failed"⟩
      ⟨some 1, "", "kill: (9) - No such process", "Command failed"⟩
      ⟨some 128, "", "ERROR: The process \"9\" not found.", "Command failed"⟩
      ⟨some 128, "", "ERROR: The process \"9\" not found.", "Command failed"⟩
      ⟨some ⟨some 1, "", "kill: (9) - No such process", "Command failed"⟩, some "", none, some ""⟩
      ⟨none, some "alive",
        some ⟨some 1, "", "kill: (9) - No such process", "Command failed"⟩, some ""⟩
      ⟨some ⟨some 128, "", "ERROR: The process \"9\" not found.", "Command failed"⟩,
        some "", none, some ""⟩
      ⟨none, some "alive",
        some ⟨some 128, "", "ERROR: The process \"9\" not found.", "Command failed"⟩, some ""⟩
      rfl rfl (by decide) (by decide) (by decide)
      rfl (by decide) rfl rfl (by decide) (by decide) (by decide)
      rfl rfl (by decide) (by decide) (by decide)
      rfl (by decide) rfl rfl (by decide) (by decide) (by decide)).1
  · exact (kill_no_such_process_success 9
      ⟨some 1, "", "kill: (9) - No such process", "Command failed"⟩
      ⟨some 1, "", "kill: (9) - No such process", "Command failed"⟩
      ⟨some 128, "", "ERROR: The process \"9\" not found.", "Command failed"⟩
      ⟨some 128, "", "ERROR: The process \"9\" not found.", "Command failed"⟩
      ⟨some ⟨some 1, "", "kill: (9) - No such process", "Command failed"⟩, some "", none, some ""⟩
      ⟨none, some "alive",
        some ⟨some 1, "", "kill: (9) - No such process", "Command failed"⟩, some ""⟩
      ⟨some ⟨some 128, "", "ERROR: The process \"9\" not found.", "Command failed"⟩,
        some "", none, some ""⟩
      ⟨none, some "alive",
        some ⟨some 128, "", "ERROR: The process \"9\" not found.", "Command failed"⟩, some ""⟩
      rfl rfl (by decide) (by decide) (by decide)
      rfl (by decide) rfl rfl (by decide) (by decide) (by decide)
      rfl rfl (by decide) (by decide) (by decide)
      rfl (by decide) rfl rfl (by decide) (by decide) (by decide)).2.2.2

/-- `Process.make` succeeds exactly as written when all `_validate`
checks hold. -/
theorem Process.make_eq (pid : Int) (name user : String) (proto : Protocol) (port : Int)
    (cmd : String) (hpid : 0 < pid) (hn : name ≠ "") (hu : user ≠ "")
    (h1 : 1 ≤ port) (h2 : port ≤ 65535) :
    Process.make pid name user proto port cmd = some ⟨pid, name, user, proto, port, cmd⟩ := by
  simp [Process.make, hn, hu, show ¬pid ≤ 0 by omega, show ¬port < 1 by omega,
    show ¬(65535 : Int) < port by omega]

/-- A successfully constructed `Process` carries the pid it was built
from. -/
theorem Process.make_pid {pid : Int} {name user : String} {proto : Protocol} {port : Int}
    {cmd : String} {proc : Process}
    (h : Process.make pid name user proto port cmd = some proc) : proc.pid = pid := by
  unfold Process.make at h
  split at h
  · cases h
  split at h
  · cases h
  split at h
  · cases h
  split at h
  · cases h
  cases h
  rfl

/-- The `name || 'Unknown'` fallback never yields an empty string. -/
theorem ifEmptyUnknown_ne (s : String) : (if s = "" then "Unknown" else s) ≠ "" := by
  by_cases h : s = "" <;> simp [h]

/-! ### Claim-side definitions for the Unix protocol/relevance sentence

The spec describes the Unix per-line protocol detection as: "default
TCP, switch to UDP if the tail (fields 9 and beyond) mentions UDP".
These two definitions transcribe that sentence (not the source), to be
compared with `unixProtocol`/`unixRelevant` above. -/

/-- Protocol per the spec's sentence: UDP iff the joined tail (fields
9+) mentions `UDP`, else the TCP default. -/
def specUnixProtocol (parts : List String) : Protocol :=
  if strContains (unixConnectionInfo parts) "UDP" then .UDP else .TCP

/-- Relevance per the spec's sentence: descriptor contains `LISTEN`,
contains `ESTABLISHED`, or the (spec-side) protocol is UDP. -/
def specUnixRelevant (parts : List String) : Bool :=
  strContains (unixConnectionInfo parts) "LISTEN" ||
  strContains (unixConnectionInfo parts) "ESTABLISHED" ||
  specUnixProtocol parts = .UDP

/-- C1 counterexample: a 9-field line with TYPE `IPv4` whose tail
mentions `UDP`.  Under the claim's reading the protocol switches to UDP
and the line contributes a `Process`; the code instead takes protocol
TCP from the TYPE field, finds no `(LISTEN)`/`(ESTABLISHED)` marker,
and drops the line — `findProcessByPort` returns `[]` on the full
fixture. -/
theorem unix_protocol_tail_claim_cex :
    specUnixProtocol (splitWs "node 99 dev 5u IPv4 dev0 0t0 TCP *:3000-UDP") = .UDP ∧
    specUnixRelevant (splitWs "node 99 dev 5u IPv4 dev0 0t0 TCP *:3000-UDP") = true ∧
    unixProtocol (splitWs "node 99 dev 5u IPv4 dev0 0t0 TCP *:3000-UDP") = .TCP ∧
    unixLineProcAux 3000 (splitWs "node 99 dev 5u IPv4 dev0 0t0 TCP *:3000-UDP") 99 = none ∧
    unixFindProcessByPort 3000
      ("COMMAND PID USER FD TYPE DEVICE SIZE/OFF NODE NAME\n" ++
       "node 99 dev 5u IPv4 dev0 0t0 TCP *:3000-UDP") = [] := by
  decide

/-- C1 (amended): on every parsed Unix output line the protocol
defaults to TCP; it is TCP whenever the TYPE field (field 5) is `IPv4`
or `IPv6`, and UDP exactly when the TYPE field is neither of those and
the NODE field (field 8) contains `UDP`; the line contributes a
`Process` iff its connection descriptor (fields 9+, joined) contains
`(LISTEN)` or `(ESTABLISHED)`, or the protocol so computed is UDP —
every other TCP state (e.g. `CLOSE_WAIT`) is dropped. -/
theorem unixLine_relevance_spec (port : Int) (parts : List String) (pid : Int)
    (hpid : 0 < pid) (hport1 : 1 ≤ port) (hport2 : port ≤ 65535) :
    ((unixLineProcAux port parts pid).isSome =
      (strContains (unixConnectionInfo parts) "(LISTEN)" ||
       strContains (unixConnectionInfo parts) "(ESTABLISHED)" ||
       unixProtocol parts = .UDP)) ∧
    (unixProtocol parts = .UDP ↔
      (parts.getD 4 "" ≠ "IPv4" ∧ parts.getD 4 "" ≠ "IPv6" ∧
       strContains (parts.getD 7 "") "UDP" = true)) := by
  constructor
  · show (unixLineProcAux port parts pid).isSome = unixRelevant parts
    by_cases hrel : unixRelevant parts
    · rw [hrel]
      unfold unixLineProcAux
      rw [hrel]
      simp only [Bool.not_true, Bool.false_eq_true, if_false]
      rw [Process.make_eq _ _ _ _ _ _ hpid (ifEmptyUnknown_ne _) (ifEmptyUnknown_ne _)
        hport1 hport2]
      rfl
    · rw [Bool.not_eq_true] at hrel
      rw [hrel]
      unfold unixLineProcAux
      rw [hrel]
      rfl
  · simp only [unixProtocol, List.getD]
    by_cases h4 : parts[4]?.getD "" = "IPv4"
    · simp [h4]
    · by_cases h6 : parts[4]?.getD "" = "IPv6"
      · simp [h4, h6]
      · by_cases h7 : strContains (parts[7]?.getD "") "UDP" = true
        · have hne : parts[7]?.getD "" ≠ "" := strContains_ne_nil _ _ (by decide) h7
          simp [h4, h6, h7, hne]
        · simp [h4, h6, h7]

/-- C1 witness: a concrete `(LISTEN)` line is kept. -/
theorem unixLine_relevance_spec_witness :
    (unixLineProcAux 3000 (splitWs "node 1234 dev 23u IPv4 0x1 0t0 TCP *:3000 (LISTEN)")
      1234).isSome = true := by
  have h := (unixLine_relevance_spec 3000
    (splitWs "node 1234 dev 23u IPv4 0x1 0t0 TCP *:3000 (LISTEN)") 1234
    (by decide) (by decide) (by decide)).1
  rw [h]
  decide

/-! ### Deduplication by PID -/

/-- The full per-line Unix pipeline, seen-set aside: trim, shape guard,
pid parse and positivity, protocol/relevance, construction. -/
def unixLineEntry (port : Int) (line : String) : Option Process :=
  let l := strTrim line
  if l = "" then none
  else
    let parts := splitWs l
    if parts.length < 9 then none
    else
      match jsParseInt (parts.getD 1 "") with
      | none => none
      | some pid => if pid ≤ 0 then none else unixLineProcAux port parts pid

/-- The pid a Unix output line would contribute, if any. -/
def unixLinePidOf (port : Int) (line : String) : Option Int :=
  (unixLineEntry port line).map (·.pid)

/-- The pid of a successful `unixLineProcAux`. -/
theorem unixLineProcAux_pid {port : Int} {parts : List String} {pid : Int} {proc : Process}
    (h : unixLineProcAux port parts pid = some proc) : proc.pid = pid := by
  unfold unixLineProcAux at h
  split at h
  · cases h
  · exact Process.make_pid h

/-- One step of the Unix loop, phrased through `unixLineEntry`. -/
theorem unixLoop_cons (port : Int) (l : String) (ls : List String) (seen : List Int) :
    unixLoop port (l :: ls) seen =
      match unixLineEntry port l with
      | none => unixLoop port ls seen
      | some proc =>
        if proc.pid ∈ seen then unixLoop port ls seen
        else proc :: unixLoop port ls (proc.pid :: seen) := by
  by_cases h1 : strTrim l = ""
  · simp [unixLoop, unixLineEntry, h1]
  · by_cases h2 : (splitWs (strTrim l)).length < 9
    · simp [unixLoop, unixLineEntry, h1, h2]
    · cases hj : jsParseInt ((splitWs (strTrim l))[1]?.getD "") with
      | none => simp [unixLoop, unixLineEntry, h1, h2, hj]
      | some p =>
        by_cases h3 : p ≤ 0
        · simp [unixLoop, unixLineEntry, h1, h2, hj, h3]
        · cases hA : unixLineProcAux port (splitWs (strTrim l)) p with
          | none =>
            by_cases h4 : p ∈ seen <;>
              simp [unixLoop, unixLineEntry, h1, h2, hj, h3, h4, hA]
          | some proc =>
            have hp : proc.pid = p := unixLineProcAux_pid hA
            by_cases h4 : p ∈ seen <;>
              simp [unixLoop, unixLineEntry, h1, h2, hj, h3, h4, hA, hp]

/-- The pids collected by the Unix loop: exactly the fresh pids some
line yields. -/
theorem unixLoop_mem_pids (port : Int) (lines : List String) (seen : List Int) (pid : Int) :
    pid ∈ (unixLoop port lines seen).map (·.pid) ↔
      pid ∉ seen ∧ ∃ l ∈ lines, unixLinePidOf port l = some pid := by
  induction lines generalizing seen with
  | nil => simp [unixLoop]
  | cons l ls ih =>
    rw [unixLoop_cons]
    cases hE : unixLineEntry port l with
    | none =>
      rw [ih]
      simp [unixLinePidOf, hE]
    | some proc =>
      dsimp only
      by_cases hs : proc.pid ∈ seen
      · rw [if_pos hs, ih]
        simp only [unixLinePidOf, hE, Option.map_some', List.mem_cons, exists_eq_or_imp,
          Option.some.injEq]
        constructor
        · rintro ⟨hns, hE'⟩
          exact ⟨hns, Or.inr hE'⟩
        · rintro ⟨hns, h | hE'⟩
          · exact absurd (h ▸ hs) hns
          · exact ⟨hns, hE'⟩
      · rw [if_neg hs]
        simp only [List.map_cons, List.mem_cons, ih, List.mem_cons, unixLinePidOf, hE,
          Option.map_some', Option.some.injEq, exists_eq_or_imp]
        constructor
        · rintro (h | ⟨hns, hE'⟩)
          · exact ⟨h ▸ hs, Or.inl h.symm⟩
          · exact ⟨fun hin => hns (Or.inr hin), Or.inr hE'⟩
        · rintro ⟨hns, h | hE'⟩
          · exact Or.inl h.symm
          · by_cases hpp : pid = proc.pid
            · exact Or.inl hpp
            · exact Or.inr ⟨fun hin => (by rcases hin with h' | h'; exact hpp h'; exact hns h'), hE'⟩

/-- The Unix loop never reports a pid twice. -/
theorem unixLoop_pids_nodup (port : Int) (lines : List String) (seen : List Int) :
    ((unixLoop port lines seen).map (·.pid)).Nodup := by
  induction lines generalizing seen with
  | nil => simp [unixLoop]
  | cons l ls ih =>
    rw [unixLoop_cons]
    cases hE : unixLineEntry port l with
    | none => exact ih seen
    | some proc =>
      dsimp only
      by_cases hs : proc.pid ∈ seen
      · rw [if_pos hs]; exact ih seen
      · rw [if_neg hs]
        simp only [List.map_cons]
        refine List.nodup_cons.mpr ⟨?_, ih _⟩
        intro hmem
        rw [unixLoop_mem_pids] at hmem
        exact hmem.1 (List.mem_cons_self _ _)

/-- The pid a Windows netstat line would contribute, if any: trim,
field-count guard, local-address port pattern, per-protocol state guard
and pid parse, positivity. -/
def winLinePidOf (port : Int) (line : String) : Option Int :=
  let l := strTrim line
  if l = "" then none
  else
    let parts := splitWs l
    if parts.length < 4 then none
    else if !winPortPatternTest port (parts.getD 1 "") then none
    else
      match winLinePid parts with
      | none => none
      | some pid => if pid ≤ 0 then none else some pid

/-- The protocol a Windows line is recorded under (first field,
uppercased; only consulted when the line is kept). -/
def winLineProto (line : String) : Protocol :=
  if strUpper ((splitWs (strTrim line)).getD 0 "") = "TCP" then .TCP else .UDP

/-- A contributed Windows pid is positive. -/
theorem winLinePidOf_pos {port : Int} {line : String} {pid : Int}
    (h : winLinePidOf port line = some pid) : 0 < pid := by
  simp only [winLinePidOf] at h
  split at h
  · cases h
  · split at h
    · cases h
    · split at h
      · cases h
      · split at h
        · cases h
        · split at h
          · cases h
          · cases h
            omega

/-- With a port in range, `winBuildProcess` always constructs a record
carrying the given pid (the `Unknown` fallback guarantees non-empty
name and user). -/
theorem winBuildProcess_some (details : Int → Option WinDetails) (pid : Int) (proto : Protocol)
    (port : Int) (hpid : 0 < pid) (h1 : 1 ≤ port) (h2 : port ≤ 65535) :
    ∃ proc, winBuildProcess details pid proto port = some proc ∧ proc.pid = pid := by
  unfold winBuildProcess
  cases hD : details pid with
  | none =>
    dsimp only
    rw [Process.make_eq _ _ _ _ _ _ hpid (by decide) (by decide) h1 h2]
    exact ⟨_, rfl, rfl⟩
  | some d =>
    dsimp only
    rw [Process.make_eq _ _ _ _ _ _ hpid (ifEmptyUnknown_ne _) (ifEmptyUnknown_ne _) h1 h2]
    exact ⟨_, rfl, rfl⟩

/-- A successfully built Windows record carries the given pid. -/
theorem winBuildProcess_pid {details : Int → Option WinDetails} {pid : Int} {proto : Protocol}
    {port : Int} {proc : Process}
    (h : winBuildProcess details pid proto port = some proc) : proc.pid = pid := by
  unfold winBuildProcess at h
  cases hD : details pid with
  | none =>
    rw [hD] at h
    dsimp only at h
    exact Process.make_pid h
  | some d =>
    rw [hD] at h
    dsimp only at h
    cases hM : Process.make pid (if d.name = "" then "Unknown" else d.name)
        (if d.user = "" then "Unknown" else d.user) proto port
        (if d.command ≠ "" then d.command else if d.name ≠ "" then d.name else "Unknown") with
    | none =>
      rw [hM] at h
      dsimp only at h
      exact Process.make_pid h
    | some p0 =>
      rw [hM] at h
      dsimp only at h
      cases h
      exact Process.make_pid hM

/-- One step of the Windows loop, phrased through `winLinePidOf`. -/
theorem winLoop_cons (port : Int) (details : Int → Option WinDetails) (l : String)
    (ls : List String) (seen : List Int) :
    winLoop port details (l :: ls) seen =
      match winLinePidOf port l with
      | none => winLoop port details ls seen
      | some pid =>
        if pid ∈ seen then winLoop port details ls seen
        else
          match winBuildProcess details pid (winLineProto l) port with
          | some proc => proc :: winLoop port details ls (pid :: seen)
          | none => winLoop port details ls (pid :: seen) := by
  by_cases h1 : strTrim l = ""
  · simp [winLoop, winLinePidOf, h1]
  · by_cases h2 : (splitWs (strTrim l)).length < 4
    · simp [winLoop, winLinePidOf, h1, h2]
    · by_cases h3 : winPortPatternTest port ((splitWs (strTrim l))[1]?.getD "")
      · cases hj : winLinePid (splitWs (strTrim l)) with
        | none => simp [winLoop, winLinePidOf, h1, h2, h3, hj]
        | some p =>
          by_cases h4 : p ≤ 0
          · simp [winLoop, winLinePidOf, h1, h2, h3, hj, h4]
          · by_cases h5 : p ∈ seen
            · simp [winLoop, winLinePidOf, h1, h2, h3, hj, h4, h5]
            · cases hB : winBuildProcess details p (winLineProto l) port with
              | none =>
                simp [winLoop, winLinePidOf, winLineProto, h1, h2, h3, hj, h4, h5] at hB ⊢
              | some proc =>
                simp [winLoop, winLinePidOf, winLineProto, h1, h2, h3, hj, h4, h5] at hB ⊢
      · simp [winLoop, winLinePidOf, h1, h2, h3]

/-- Every pid the Windows loop reports is fresh with respect to the
starting seen-set. -/
theorem winLoop_pids_notin_seen (port : Int) (details : Int → Option WinDetails)
    (lines : List String) (seen : List Int) :
    ∀ pid ∈ (winLoop port details lines seen).map (·.pid), pid ∉ seen := by
  induction lines generalizing seen with
  | nil => simp [winLoop]
  | cons l ls ih =>
    rw [winLoop_cons]
    cases hP : winLinePidOf port l with
    | none => exact ih seen
    | some p =>
      dsimp only
      by_cases hs : p ∈ seen
      · rw [if_pos hs]; exact ih seen
      · rw [if_neg hs]
        cases hB : winBuildProcess details p (winLineProto l) port with
        | none =>
          intro pid hmem
          have := ih (p :: seen) pid hmem
          exact fun hin => this (List.mem_cons_of_mem _ hin)
        | some proc =>
          intro pid hmem
          rcases List.mem_cons.mp hmem with h | h
          · have hp : proc.pid = p := winBuildProcess_pid hB
            rw [h]
            simpa [hp] using hs
          · have := ih (p :: seen) pid h
            exact fun hin => this (List.mem_cons_of_mem _ hin)

/-- The Windows loop never reports a pid twice. -/
theorem winLoop_pids_nodup (port : Int) (details : Int → Option WinDetails)
    (lines : List String) (seen : List Int) :
    ((winLoop port details lines seen).map (·.pid)).Nodup := by
  induction lines generalizing seen with
  | nil => simp [winLoop]
  | cons l ls ih =>
    rw [winLoop_cons]
    cases hP : winLinePidOf port l with
    | none => exact ih seen
    | some p =>
      dsimp only
      by_cases hs : p ∈ seen
      · rw [if_pos hs]; exact ih seen
      · rw [if_neg hs]
        cases hB : winBuildProcess details p (winLineProto l) port with
        | none => exact ih _
        | some proc =>
          simp only [List.map_cons]
          refine List.nodup_cons.mpr ⟨?_, ih _⟩
          intro hmem
          have hfresh := winLoop_pids_notin_seen port details ls (p :: seen) _ hmem
          have hp : proc.pid = p := winBuildProcess_pid hB
          exact hfresh (hp ▸ List.mem_cons_self _ _)

/-- With a port in range the Windows loop collects exactly the fresh
pids some line yields (construction then never fails). -/
theorem winLoop_mem_pids (port : Int) (details : Int → Option WinDetails)
    (lines : List String) (seen : List Int) (pid : Int)
    (h1 : 1 ≤ port) (h2 : port ≤ 65535) :
    pid ∈ (winLoop port details lines seen).map (·.pid) ↔
      pid ∉ seen ∧ ∃ l ∈ lines, winLinePidOf port l = some pid := by
  induction lines generalizing seen with
  | nil => simp [winLoop]
  | cons l ls ih =>
    rw [winLoop_cons]
    cases hP : winLinePidOf port l with
    | none =>
      rw [ih]
      simp [hP]
    | some p =>
      dsimp only
      by_cases hs : p ∈ seen
      · rw [if_pos hs, ih]
        simp only [hP, List.mem_cons, exists_eq_or_imp, Option.some.injEq]
        constructor
        · rintro ⟨hns, hE'⟩
          exact ⟨hns, Or.inr hE'⟩
        · rintro ⟨hns, h | hE'⟩
          · exact absurd (h ▸ hs) hns
          · exact ⟨hns, hE'⟩
      · rw [if_neg hs]
        obtain ⟨proc, hB, hp⟩ :=
          winBuildProcess_some details p (winLineProto l) port (winLinePidOf_pos hP) h1 h2
        rw [hB]
        simp only [List.map_cons, List.mem_cons, ih, List.mem_cons, hP, Option.some.injEq,
          exists_eq_or_imp, hp]
        constructor
        · rintro (h | ⟨hns, hE'⟩)
          · exact ⟨h ▸ hs, Or.inl h.symm⟩
          · exact ⟨fun hin => hns (Or.inr hin), Or.inr hE'⟩
        · rintro ⟨hns, h | hE'⟩
          · exact Or.inl h.symm
          · by_cases hpp : pid = p
            · exact Or.inl hpp
            · exact Or.inr ⟨fun hin => (by rcases hin with h' | h'; exact hpp h'; exact hns h'), hE'⟩

/-- C6: on either adapter, `findProcessByPort` returns exactly one
`Process` per distinct PID that survives the relevance filter: the
returned PIDs are pairwise distinct, and a pid is returned iff some
output line yields it through the full per-line pipeline. -/
theorem find_dedup_pids (port : Int) (stdout : String) (details : Int → Option WinDetails)
    (h1 : 1 ≤ port) (h2 : port ≤ 65535) :
    ((unixFindProcessByPort port stdout).map (·.pid)).Nodup ∧
    (∀ pid, pid ∈ (unixFindProcessByPort port stdout).map (·.pid) ↔
      ∃ l ∈ unixDataLines stdout, unixLinePidOf port l = some pid) ∧
    ((winFindProcessByPort port details stdout).map (·.pid)).Nodup ∧
    (∀ pid, pid ∈ (winFindProcessByPort port details stdout).map (·.pid) ↔
      ∃ l ∈ winDataLines stdout, winLinePidOf port l = some pid) := by
  refine ⟨unixLoop_pids_nodup port _ [], fun pid => ?_,
    winLoop_pids_nodup port details _ [], fun pid => ?_⟩
  · rw [unixFindProcessByPort, unixLoop_mem_pids]
    simp
  · rw [winFindProcessByPort, winLoop_mem_pids port details _ _ _ h1 h2]
    simp

/-- C6 witness: duplicate-PID fixtures on both adapters. -/
theorem find_dedup_pids_witness :
    ((unixFindProcessByPort 3000
      ("COMMAND PID USER FD TYPE DEVICE SIZE/OFF NODE NAME\n" ++
       "node 1234 dev 23u IPv4 0x1 0t0 TCP *:3000 (LISTEN)\n" ++
       "node 1234 dev 24u IPv6 0x2 0t0 TCP *:3000 (LISTEN)")).map (·.pid)).Nodup ∧
    ((winFindProcessByPort 3000 (fun _ => none)
      ("  TCP    0.0.0.0:3000    0.0.0.0:0    LISTENING    4321\n" ++
       "  TCP    [::]:3000       [::]:0       LISTENING    4321")).map (·.pid)).Nodup :=
  ⟨(find_dedup_pids 3000
      ("COMMAND PID USER FD TYPE DEVICE SIZE/OFF NODE NAME\n" ++
       "node 1234 dev 23u IPv4 0x1 0t0 TCP *:3000 (LISTEN)\n" ++
       "node 1234 dev 24u IPv6 0x2 0t0 TCP *:3000 (LISTEN)")
      (fun _ => none) (by decide) (by decide)).1,
   (find_dedup_pids 3000
      ("  TCP    0.0.0.0:3000    0.0.0.0:0    LISTENING    4321\n" ++
       "  TCP    [::]:3000       [::]:0       LISTENING    4321")
      (fun _ => none) (by decide) (by decide)).2.2.1⟩

example :
    unixFindProcessByPort 3000
      ("COMMAND PID USER FD TYPE DEVICE SIZE/OFF NODE NAME\n" ++
       "node 1234 dev 23u IPv4 0x1 0t0 TCP *:3000 (LISTEN)\n" ++
       "node 1234 dev 24u IPv6 0x2 0t0 TCP *:3000 (LISTEN)") =
      [⟨1234, "node", "dev", .TCP, 3000, "node"⟩] := by decide

end Portkill
